import Mathlib

/-!
Verification of the durability and catalog core of the terrier storage
engine.  The catalog layer (`catalog.cpp`, `table_handle.cpp`) is embedded
directly from the source; the storage helpers (`SqlTableRW`) and the
checkpoint / WAL machinery, whose sources are not part of the repository
snapshot, are modelled from the specification where noted.
-/

namespace Terrier

/-- Column types used by the catalog tables (`type::TypeId`). -/
inductive TypeId where
  | boolean
  | integer
  | bigint
  | varchar
deriving DecidableEq

/-- A column definition as produced by `SqlTableRW::DefineColumn`:
name, type, nullability and the column oid. -/
structure ColDef where
  name : String
  ty : TypeId
  nullable : Bool
  colOid : Nat
deriving DecidableEq

/-- A cell value.  `int` corresponds to `SetIntColInRow` (INTEGER),
`big` to `SetBigintColInRow` (BIGINT, used for the `__ptr` column which
stores a raw object address), `varchar` to `SetVarcharColInRow`. -/
inductive Val where
  | int (v : Nat)
  | big (v : Nat)
  | varchar (s : String)
deriving DecidableEq

/-- A stored row: one optional value per column (`none` = NULL / unset). -/
abbrev Row := List (Option Val)

/-- Modelled from the spec: `SqlTableRW` (the schema-aware catalog table
helper, `catalog_sql_table.h`, is not in the repository snapshot).  The
spec describes catalog tables as heap-stored relations with a typed
schema; a table is its oid, its column list, its committed rows and the
row currently being assembled by `StartRow`/`Set*ColInRow`.  `addr` is
the in-memory address of the backing object (`shared_ptr::get()`). -/
structure SqlTableRW where
  tableOid : Nat
  addr : Nat
  cols : List ColDef := []
  rows : List Row := []
  pending : Row := []
deriving DecidableEq

/-- `SqlTableRW::DefineColumn`: appends a column to the schema. -/
def SqlTableRW.defineColumn (t : SqlTableRW) (name : String) (ty : TypeId)
    (nullable : Bool) (colOid : Nat) : SqlTableRW :=
  { t with cols := t.cols ++ [⟨name, ty, nullable, colOid⟩] }

/-- `SqlTableRW::StartRow`: begins assembling a fresh row (all columns
unset). -/
def SqlTableRW.startRow (t : SqlTableRW) : SqlTableRW :=
  { t with pending := List.replicate t.cols.length none }

/-- `SqlTableRW::Set*ColInRow`: writes a value into column `i` of the
pending row. -/
def SqlTableRW.setColInRow (t : SqlTableRW) (i : Nat) (v : Val) : SqlTableRW :=
  { t with pending := t.pending.set i (some v) }

/-- `SqlTableRW::SetIntColInRow`. -/
def SqlTableRW.setIntColInRow (t : SqlTableRW) (i : Nat) (v : Nat) : SqlTableRW :=
  t.setColInRow i (Val.int v)

/-- `SqlTableRW::SetBigintColInRow`. -/
def SqlTableRW.setBigintColInRow (t : SqlTableRW) (i : Nat) (v : Nat) : SqlTableRW :=
  t.setColInRow i (Val.big v)

/-- `SqlTableRW::SetVarcharColInRow`. -/
def SqlTableRW.setVarcharColInRow (t : SqlTableRW) (i : Nat) (s : String) : SqlTableRW :=
  t.setColInRow i (Val.varchar s)

/-- `SqlTableRW::EndRowAndInsert` (the table part): commits the pending
row to the heap. -/
def SqlTableRW.endRowAndInsert (t : SqlTableRW) : SqlTableRW :=
  { t with rows := t.rows ++ [t.pending], pending := [] }

/-- Modelled from the spec: `SqlTableRW::FindRow(txn, col, value)` — a
single-row scan returning the first row whose column `c` holds `v`, or
not-found.  The spec (§4.6) has handle lookups "return either `entry` or
`not found`". -/
def SqlTableRW.findRow (t : SqlTableRW) (c : Nat) (v : Val) : Option Row :=
  t.rows.find? (fun r => r.getD c none = some v)

/-- Reads a column of a row as a raw integer, the way
`GetIntColInRow` / `reinterpret_cast` reads raw attribute storage.
Both 4-byte and 8-byte integer cells yield their value. -/
def readIntCol (r : Row) (i : Nat) : Nat :=
  match r.getD i none with
  | some (Val.int v) => v
  | some (Val.big v) => v
  | _ => 0

/-- Modelled from the spec: name-to-oid lookup through a navigation
handle (`GetNamespaceEntry` / `GetTablespaceEntry` / `NameToOid`, whose
sources are not in the snapshot): a single-row scan of the catalog table
by the name column (column 1), returning its oid column (column 0). -/
def lookupOidByName (t : SqlTableRW) (name : String) : Nat :=
  match t.findRow 1 (Val.varchar name) with
  | some r => readIntCol r 0
  | none => 0

/-! ## TableHandle (`table_handle.cpp`, src/unnamed/part_000) -/

/-- A `TableHandle`: the namespace it navigates plus the catalog tables
it holds (`nsp_oid_`, `pg_class_`, `pg_namespace_`, `pg_tablespace_`). -/
structure TableHandle where
  nspOid : Nat
  pgClass : SqlTableRW
  pgNamespace : SqlTableRW
  pgTablespace : SqlTableRW
deriving DecidableEq

/-- Result of `TableHandle::GetTableEntry`.  `entry` and `notFound`
correspond to the shared-pointer result and `nullptr`; `nullDeref`
marks the null-row dereference the source performs when `FindRow`
misses (`GetIntColInRow(2, nullptr)` with no null check — the source
carries a `TODO(yangjuns): error handling` at exactly this point). -/
inductive LookupResult where
  | entry (name : String)
  | notFound
  | nullDeref
deriving DecidableEq

/-- Embeds `TableHandle::GetTableEntry(txn, name)`: finds the `pg_class`
row whose column 1 equals `name`, reads its column 2 as the namespace
oid, returns `nullptr` when that namespace differs from the handle's,
and the entry otherwise.  A `FindRow` miss flows the null row straight
into `GetIntColInRow`. -/
def TableHandle.getTableEntry (h : TableHandle) (name : String) : LookupResult :=
  match h.pgClass.findRow 1 (Val.varchar name) with
  | none => LookupResult.nullDeref
  | some row =>
    let nsp := readIntCol row 2
    if nsp ≠ h.nspOid then LookupResult.notFound else LookupResult.entry name

/-- Embeds `TableHandle::CreateTable(txn, schema, name)`: builds the
backing table from the schema, then inserts the catalog row into
`pg_class` exactly as the source does —
`SetIntColInRow(0, table->Oid())`, `SetVarcharColInRow(1, name)`,
`SetIntColInRow(2, nsp_oid_)`, `SetIntColInRow(3, pg_default_oid)` —
returning the backing table and the updated `pg_class`.
`nextOid` is the value `catalog_->GetNextOid()` hands out and
`backingAddr` the address of the freshly constructed backing object. -/
def TableHandle.createTable (h : TableHandle) (schema : List ColDef)
    (name : String) (nextOid : Nat) (backingAddr : Nat) :
    SqlTableRW × SqlTableRW :=
  let backing : SqlTableRW :=
    schema.foldl (fun t c => t.defineColumn c.name c.ty c.nullable c.colOid)
      { tableOid := nextOid, addr := backingAddr }
  let pc := h.pgClass.startRow
  let pc := pc.setIntColInRow 0 backing.tableOid
  let pc := pc.setVarcharColInRow 1 name
  let pc := pc.setIntColInRow 2 h.nspOid
  let pc := pc.setIntColInRow 3 (lookupOidByName h.pgTablespace "pg_default")
  (backing, pc.endRowAndInsert)

/-! ### Concrete fixtures for evaluating the TableHandle paths -/

/-- The five-column `pg_class` schema exactly as `Catalog::CreatePGClass`
defines it: `__ptr` (BIGINT), `oid`, `relname`, `relnamespace`,
`reltablespace`. -/
def pgClassCols (o : Nat) : List ColDef :=
  [⟨"__ptr", TypeId.bigint, false, o⟩,
   ⟨"oid", TypeId.integer, false, o + 1⟩,
   ⟨"relname", TypeId.varchar, false, o + 2⟩,
   ⟨"relnamespace", TypeId.integer, false, o + 3⟩,
   ⟨"reltablespace", TypeId.integer, false, o + 4⟩]

/-- An empty `pg_class` with the bootstrap schema. -/
def emptyPgClass : SqlTableRW :=
  { tableOid := 20, addr := 900, cols := pgClassCols 21 }

/-- A `pg_tablespace` holding the two bootstrap rows `pg_global` and
`pg_default`. -/
def fixtureTablespace : SqlTableRW :=
  { tableOid := 4, addr := 901,
    cols := [⟨"oid", TypeId.integer, false, 5⟩, ⟨"spcname", TypeId.varchar, false, 6⟩],
    rows := [[some (Val.int 7), some (Val.varchar "pg_global")],
             [some (Val.int 8), some (Val.varchar "pg_default")]] }

/-- A handle over the empty `pg_class`, navigating namespace oid 12. -/
def fixtureHandle : TableHandle :=
  { nspOid := 12, pgClass := emptyPgClass,
    pgNamespace := { tableOid := 9, addr := 902 },
    pgTablespace := fixtureTablespace }

/-- The pg_class row `CreateTable` actually inserts for
`createTable fixtureHandle schema "foo" 42 999`. -/
def c5InsertedRow : Row :=
  ((fixtureHandle.createTable
      [⟨"id", TypeId.integer, false, 50⟩] "foo" 42 999).2.rows).getD 0 []

/-- C5.  `TableHandle::CreateTable` writes the freshly allocated table
oid — an INTEGER — into column 0 of `pg_class`, which the catalog's own
`CreatePGClass` defines as the BIGINT `__ptr` column holding the backing
table address (and which `Catalog::DestroyDB` later deletes as a
pointer).  The name lands in the `oid` column, the namespace oid in
`relname`, the tablespace oid in `relnamespace`, and `reltablespace`
stays unset.  The backing pointer is never stored: the inserted row is
evaluated here and its column 0 is `int 42` (the table oid), not the
backing address 999. -/
theorem createTable_row_misaligned_eval :
    c5InsertedRow =
      [some (Val.int 42), some (Val.varchar "foo"), some (Val.int 12),
       some (Val.int 8), none] ∧
    c5InsertedRow.getD 0 none ≠ some (Val.big 999) := by
  constructor
  · rfl
  · decide

/-- C9.  `TableHandle::GetTableEntry` on a name absent from `pg_class`:
`FindRow` misses (not-found, per the spec), and the source immediately
calls `GetIntColInRow(2, row)` on the null result with no check — a null
dereference, not the absent result the spec promises.  Evaluated on the
empty `pg_class` fixture. -/
theorem getTableEntry_missing_name_null_deref :
    fixtureHandle.getTableEntry "no_such_table" = LookupResult.nullDeref := by
  rfl

/-- C10.  When the `pg_class` lookup by name does find a row, the entry
is returned exactly when the row's namespace-oid column equals the
handle's namespace oid; otherwise `GetTableEntry` returns null
(not found).  The operation only reads the catalog tables. -/
theorem getTableEntry_namespace_filter (h : TableHandle) (name : String)
    (row : Row) (m : Nat)
    (hfind : h.pgClass.findRow 1 (Val.varchar name) = some row)
    (hnsp : readIntCol row 2 = m) :
    (m ≠ h.nspOid → h.getTableEntry name = LookupResult.notFound) ∧
    (m = h.nspOid → h.getTableEntry name = LookupResult.entry name) := by
  subst hnsp
  constructor
  · intro hne
    simp [TableHandle.getTableEntry, hfind, hne]
  · intro heq
    simp [TableHandle.getTableEntry, hfind, heq]

/-- A `pg_class` holding one row written by `CreateTable` under
namespace 12 and one under namespace 13. -/
def c10PgClass : SqlTableRW :=
  (({ nspOid := 13, pgClass := (fixtureHandle.createTable
        [⟨"id", TypeId.integer, false, 50⟩] "mine" 42 999).2,
      pgNamespace := fixtureHandle.pgNamespace,
      pgTablespace := fixtureTablespace : TableHandle }).createTable
        [⟨"id", TypeId.integer, false, 51⟩] "other" 43 998).2

/-- The handle for namespace 12 over `c10PgClass`. -/
def c10Handle : TableHandle :=
  { nspOid := 12, pgClass := c10PgClass,
    pgNamespace := fixtureHandle.pgNamespace,
    pgTablespace := fixtureTablespace }

/-- Witness for C10: over a `pg_class` holding "mine" (namespace 12) and
"other" (namespace 13), the namespace-12 handle returns the entry for
"mine" and null for "other". -/
theorem getTableEntry_namespace_filter_witness :
    c10Handle.pgClass.findRow 1 (Val.varchar "other") =
      some [some (Val.int 43), some (Val.varchar "other"), some (Val.int 13),
            some (Val.int 8), none] ∧
    c10Handle.getTableEntry "other" = LookupResult.notFound ∧
    c10Handle.getTableEntry "mine" = LookupResult.entry "mine" := by
  refine ⟨by decide, ?_, ?_⟩
  · exact (getTableEntry_namespace_filter c10Handle "other"
      [some (Val.int 43), some (Val.varchar "other"), some (Val.int 13),
       some (Val.int 8), none] 13 (by decide) (by decide)).1 (by decide)
  · exact (getTableEntry_namespace_filter c10Handle "mine"
      [some (Val.int 42), some (Val.varchar "mine"), some (Val.int 12),
       some (Val.int 8), none] 12 (by decide) (by decide)).2 (by decide)

/-! ## Catalog bootstrap (`catalog.cpp`) -/

/-- Transaction-visible events of the bootstrap transaction:
`BeginTransaction`, each `EndRowAndInsert`, and `Commit`. -/
inductive Event where
  | begin
  | insert (table : String) (r : Row)
  | commit
deriving DecidableEq

/-- A reference to one of the four catalog tables, modelling the shared
pointers stored in `map_` (dereferencing a stored pointer yields the
current state of the pointed-to table). -/
inductive TableRef where
  | db
  | ts
  | ns
  | cls
deriving DecidableEq

/-- The dummy value an uninitialised table field holds before its
`CreatePG*` call runs. -/
def SqlTableRW.empty : SqlTableRW := { tableOid := 0, addr := 0 }

/-- The catalog state: the oid counter `oid_`, the list of oids it has
handed out, the transaction events so far, the four catalog tables, and
the `map_` / `name_map_` registries for the default database. -/
structure Catalog where
  oid : Nat
  issued : List Nat := []
  events : List Event := []
  pgDatabase : SqlTableRW := SqlTableRW.empty
  pgTablespace : SqlTableRW := SqlTableRW.empty
  pgNamespace : SqlTableRW := SqlTableRW.empty
  pgClass : SqlTableRW := SqlTableRW.empty
  oidMap : List (Nat × TableRef) := []
  nameMap : List (String × Nat) := []
deriving DecidableEq

/-- `Catalog::GetNextOid`: returns `oid_++`.  The returned value is the
pre-increment counter, read as `c.oid` just before `issue` advances
it. -/
def Catalog.issue (c : Catalog) : Catalog :=
  { c with oid := c.oid + 1, issued := c.issued ++ [c.oid] }

/-- Dereferences a stored table pointer. -/
def Catalog.deref (c : Catalog) : TableRef → SqlTableRW
  | TableRef.db => c.pgDatabase
  | TableRef.ts => c.pgTablespace
  | TableRef.ns => c.pgNamespace
  | TableRef.cls => c.pgClass

/-- `Catalog::GetDatabaseCatalog(db_oid, name)`: `name_map_` gives the
table oid, `map_` gives the table. -/
def Catalog.getDatabaseCatalog (c : Catalog) (n : String) : SqlTableRW :=
  match (c.nameMap.find? (fun p => p.1 = n)).bind
      (fun p => (c.oidMap.find? (fun q => q.1 = p.2)).map (fun q => q.2)) with
  | some r => c.deref r
  | none => SqlTableRW.empty

/-- `Catalog::CreatePGDatabase(table_oid)`: allocates `pg_database` at
address `addr` and defines its `oid` / `datname` columns.  The
repository snapshot does not contain `pg_database_unused_cols_`
(`catalog.h`); following the spec, which gives `pg_database(oid,
datname)`, the unused-column list is empty and
`AddUnusedSchemaColumns` / `SetUnusedSchemaColumns` contribute
nothing. -/
def Catalog.createPGDatabase (c0 : Catalog) (addr toid : Nat) : Catalog :=
  let o1 := c0.oid
  let c1 := c0.issue
  let o2 := c1.oid
  let c2 := c1.issue
  let t : SqlTableRW := { tableOid := toid, addr := addr }
  let t := t.defineColumn "oid" TypeId.integer false o1
  let t := t.defineColumn "datname" TypeId.varchar false o2
  { c2 with pgDatabase := t }

/-- `Catalog::PopulatePGDatabase(txn)`: inserts the default database row
`(DEFAULT_DATABASE_OID, "terrier")`. -/
def Catalog.populatePGDatabase (c : Catalog) (defaultDbOid : Nat) : Catalog :=
  let t := c.pgDatabase.startRow
  let t := t.setIntColInRow 0 defaultDbOid
  let t := t.setVarcharColInRow 1 "terrier"
  { c with pgDatabase := t.endRowAndInsert,
           events := c.events ++ [Event.insert "pg_database" t.pending] }

/-- `Catalog::CreatePGTablespace(table_oid)`. -/
def Catalog.createPGTablespace (c0 : Catalog) (addr toid : Nat) : Catalog :=
  let o1 := c0.oid
  let c1 := c0.issue
  let o2 := c1.oid
  let c2 := c1.issue
  let t : SqlTableRW := { tableOid := toid, addr := addr }
  let t := t.defineColumn "oid" TypeId.integer false o1
  let t := t.defineColumn "spcname" TypeId.varchar false o2
  { c2 with pgTablespace := t }

/-- `Catalog::PopulatePGTablespace(txn)`: allocates oids for and inserts
the `pg_global` and `pg_default` rows. -/
def Catalog.populatePGTablespace (c0 : Catalog) : Catalog :=
  let gOid := c0.oid
  let c1 := c0.issue
  let dOid := c1.oid
  let c2 := c1.issue
  let t := c2.pgTablespace.startRow
  let t := t.setIntColInRow 0 gOid
  let t := t.setVarcharColInRow 1 "pg_global"
  let c3 := { c2 with pgTablespace := t.endRowAndInsert,
                      events := c2.events ++ [Event.insert "pg_tablespace" t.pending] }
  let t := c3.pgTablespace.startRow
  let t := t.setIntColInRow 0 dOid
  let t := t.setVarcharColInRow 1 "pg_default"
  { c3 with pgTablespace := t.endRowAndInsert,
            events := c3.events ++ [Event.insert "pg_tablespace" t.pending] }

/-- `Catalog::CreatePGNameSpace(txn, db_oid)`: creates `pg_namespace`,
registers it, and inserts the `pg_catalog` and `public` rows. -/
def Catalog.createPGNameSpace (c0 : Catalog) (addr : Nat) : Catalog :=
  let toid := c0.oid
  let c1 := c0.issue
  let o1 := c1.oid
  let c2 := c1.issue
  let o2 := c2.oid
  let c3 := c2.issue
  let t : SqlTableRW := { tableOid := toid, addr := addr }
  let t := t.defineColumn "oid" TypeId.integer false o1
  let t := t.defineColumn "nspname" TypeId.varchar false o2
  let c4 := { c3 with pgNamespace := t,
                      oidMap := c3.oidMap ++ [(toid, TableRef.ns)],
                      nameMap := c3.nameMap ++ [("pg_namespace", toid)] }
  let nsCat := c4.oid
  let c5 := c4.issue
  let t := c5.pgNamespace.startRow
  let t := t.setIntColInRow 0 nsCat
  let t := t.setVarcharColInRow 1 "pg_catalog"
  let c6 := { c5 with pgNamespace := t.endRowAndInsert,
                      events := c5.events ++ [Event.insert "pg_namespace" t.pending] }
  let nsPub := c6.oid
  let c7 := c6.issue
  let t := c7.pgNamespace.startRow
  let t := t.setIntColInRow 0 nsPub
  let t := t.setVarcharColInRow 1 "public"
  { c7 with pgNamespace := t.endRowAndInsert,
            events := c7.events ++ [Event.insert "pg_namespace" t.pending] }

/-- Inserts one self-reference row into `pg_class`: `__ptr` is the
address of the named table, `oid` its table oid, `relname` its name,
`relnamespace` the `pg_catalog` namespace oid, `reltablespace` the
named tablespace's oid (looked up through the navigation handles). -/
def Catalog.insertPGClassRow (c : Catalog) (name tablespace : String) : Catalog :=
  let entry := c.getDatabaseCatalog name
  let nspOid := lookupOidByName c.pgNamespace "pg_catalog"
  let tsOid := lookupOidByName c.pgTablespace tablespace
  let t := c.pgClass.startRow
  let t := t.setBigintColInRow 0 entry.addr
  let t := t.setIntColInRow 1 entry.tableOid
  let t := t.setVarcharColInRow 2 name
  let t := t.setIntColInRow 3 nspOid
  let t := t.setIntColInRow 4 tsOid
  { c with pgClass := t.endRowAndInsert,
           events := c.events ++ [Event.insert "pg_class" t.pending] }

/-- `Catalog::CreatePGClass(txn, db_oid)`: creates the five-column
`pg_class`, registers it, and inserts the self-reference rows for
`pg_database`, `pg_tablespace` (tablespace `pg_global`), `pg_namespace`
and `pg_class` itself (tablespace `pg_default`). -/
def Catalog.createPGClass (c0 : Catalog) (addr : Nat) : Catalog :=
  let toid := c0.oid
  let c1 := c0.issue
  let o1 := c1.oid
  let c2 := c1.issue
  let o2 := c2.oid
  let c3 := c2.issue
  let o3 := c3.oid
  let c4 := c3.issue
  let o4 := c4.oid
  let c5 := c4.issue
  let o5 := c5.oid
  let c6 := c5.issue
  let t : SqlTableRW := { tableOid := toid, addr := addr }
  let t := t.defineColumn "__ptr" TypeId.bigint false o1
  let t := t.defineColumn "oid" TypeId.integer false o2
  let t := t.defineColumn "relname" TypeId.varchar false o3
  let t := t.defineColumn "relnamespace" TypeId.integer false o4
  let t := t.defineColumn "reltablespace" TypeId.integer false o5
  let c7 := { c6 with pgClass := t,
                      oidMap := c6.oidMap ++ [(toid, TableRef.cls)],
                      nameMap := c6.nameMap ++ [("pg_class", toid)] }
  let c8 := c7.insertPGClassRow "pg_database" "pg_global"
  let c9 := c8.insertPGClassRow "pg_tablespace" "pg_global"
  let c10 := c9.insertPGClassRow "pg_namespace" "pg_default"
  c10.insertPGClassRow "pg_class" "pg_default"

/-- `Catalog::BootstrapDatabase(txn, db_oid)`: registers `pg_database`
and `pg_tablespace` in the database's maps, then creates `pg_namespace`
and `pg_class`. -/
def Catalog.bootstrapDatabase (c0 : Catalog) (addrNs addrCls : Nat) : Catalog :=
  let c1 := { c0 with
    oidMap := c0.oidMap ++ [(c0.pgDatabase.tableOid, TableRef.db),
                            (c0.pgTablespace.tableOid, TableRef.ts)],
    nameMap := c0.nameMap ++ [("pg_database", c0.pgDatabase.tableOid),
                              ("pg_tablespace", c0.pgTablespace.tableOid)] }
  let c2 := c1.createPGNameSpace addrNs
  c2.createPGClass addrCls

/-- `Catalog::Bootstrap` (run by the constructor): one transaction that
creates and populates `pg_database`, `pg_tablespace`, and the default
database's `pg_namespace` and `pg_class`, then commits.  `startOid` is
`START_OID`, `defaultDbOid` is `DEFAULT_DATABASE_OID` (both defined in
`catalog_defs.h`, not in the snapshot, so left as parameters); the
`addr*` parameters are the heap addresses of the four allocated
tables. -/
def bootstrap (startOid defaultDbOid addrDb addrTs addrNs addrCls : Nat) : Catalog :=
  let c0 : Catalog := { oid := startOid, events := [Event.begin] }
  let toidDb := c0.oid
  let c1 := c0.issue
  let c2 := c1.createPGDatabase addrDb toidDb
  let c3 := c2.populatePGDatabase defaultDbOid
  let toidTs := c3.oid
  let c4 := c3.issue
  let c5 := c4.createPGTablespace addrTs toidTs
  let c6 := c5.populatePGTablespace
  let c7 := c6.bootstrapDatabase addrNs addrCls
  { c7 with events := c7.events ++ [Event.commit] }

set_option maxHeartbeats 1600000 in
/-- C6.  Catalog reflexivity: after bootstrap, the `pg_class` row whose
`relname` is a catalog table's name carries, in its `__ptr` column, the
in-memory address of that table's backing `SqlTableRW` — for all four
catalog tables and any choice of `START_OID`, default database oid and
heap addresses. -/
theorem catalog_reflexivity (s d aDb aTs aNs aCls : Nat) :
    (((bootstrap s d aDb aTs aNs aCls).pgClass.findRow 2
        (Val.varchar "pg_database")).map (fun r => r.getD 0 none) =
      some (some (Val.big aDb))) ∧
    (((bootstrap s d aDb aTs aNs aCls).pgClass.findRow 2
        (Val.varchar "pg_tablespace")).map (fun r => r.getD 0 none) =
      some (some (Val.big aTs))) ∧
    (((bootstrap s d aDb aTs aNs aCls).pgClass.findRow 2
        (Val.varchar "pg_namespace")).map (fun r => r.getD 0 none) =
      some (some (Val.big aNs))) ∧
    (((bootstrap s d aDb aTs aNs aCls).pgClass.findRow 2
        (Val.varchar "pg_class")).map (fun r => r.getD 0 none) =
      some (some (Val.big aCls))) := by
  have h0 : decide (s = s + 1 + 1 + 1) = false := decide_eq_false (by omega)
  have h1 : decide (s = s + 1 + 1 + 1 + 1 + 1 + 1 + 1 + 1) = false :=
    decide_eq_false (by omega)
  have h2 : decide (s + 1 + 1 + 1 = s + 1 + 1 + 1 + 1 + 1 + 1 + 1 + 1) = false :=
    decide_eq_false (by omega)
  have h3 : decide (s = s + 1 + 1 + 1 + 1 + 1 + 1 + 1 + 1 + 1 + 1 + 1 + 1 + 1) = false :=
    decide_eq_false (by omega)
  have h4 : decide (s + 1 + 1 + 1 = s + 1 + 1 + 1 + 1 + 1 + 1 + 1 + 1 + 1 + 1 + 1 + 1 + 1) =
      false := decide_eq_false (by omega)
  have h5 : decide (s + 1 + 1 + 1 + 1 + 1 + 1 + 1 + 1 =
      s + 1 + 1 + 1 + 1 + 1 + 1 + 1 + 1 + 1 + 1 + 1 + 1 + 1) = false :=
    decide_eq_false (by omega)
  refine ⟨?_, ?_, ?_, ?_⟩ <;>
    simp [h0, h1, h2, h3, h4, h5, bootstrap, Catalog.issue, Catalog.createPGDatabase,
      Catalog.populatePGDatabase, Catalog.createPGTablespace, Catalog.populatePGTablespace,
      Catalog.bootstrapDatabase, Catalog.createPGNameSpace, Catalog.createPGClass,
      Catalog.insertPGClassRow, Catalog.getDatabaseCatalog, Catalog.deref, lookupOidByName,
      SqlTableRW.findRow, SqlTableRW.defineColumn, SqlTableRW.startRow,
      SqlTableRW.setIntColInRow, SqlTableRW.setBigintColInRow, SqlTableRW.setVarcharColInRow,
      SqlTableRW.setColInRow, SqlTableRW.endRowAndInsert, SqlTableRW.empty, List.find?,
      List.getD, List.get?, List.replicate, List.set, readIntCol]

set_option maxHeartbeats 1600000 in
/-- C7.  Bootstrap issues its oids from the monotonic counter starting
at `START_OID` (nineteen consecutive, strictly increasing values), and
its single transaction — one `begin`, one final `commit` — inserts the
`terrier` database row, the `pg_global` and `pg_default` tablespaces,
the `pg_catalog` and `public` namespaces, and the four catalog
self-reference rows of `pg_class`. -/
theorem bootstrap_single_txn_monotonic_oids (s d aDb aTs aNs aCls : Nat) :
    (bootstrap s d aDb aTs aNs aCls).issued = List.range' s 19 ∧
    (bootstrap s d aDb aTs aNs aCls).issued.Pairwise (· < ·) ∧
    (bootstrap s d aDb aTs aNs aCls).events =
      [Event.begin,
       Event.insert "pg_database"
         [some (Val.int d), some (Val.varchar "terrier")],
       Event.insert "pg_tablespace"
         [some (Val.int (s + 6)), some (Val.varchar "pg_global")],
       Event.insert "pg_tablespace"
         [some (Val.int (s + 7)), some (Val.varchar "pg_default")],
       Event.insert "pg_namespace"
         [some (Val.int (s + 11)), some (Val.varchar "pg_catalog")],
       Event.insert "pg_namespace"
         [some (Val.int (s + 12)), some (Val.varchar "public")],
       Event.insert "pg_class"
         [some (Val.big aDb), some (Val.int s), some (Val.varchar "pg_database"),
          some (Val.int (s + 11)), some (Val.int (s + 6))],
       Event.insert "pg_class"
         [some (Val.big aTs), some (Val.int (s + 3)), some (Val.varchar "pg_tablespace"),
          some (Val.int (s + 11)), some (Val.int (s + 6))],
       Event.insert "pg_class"
         [some (Val.big aNs), some (Val.int (s + 8)), some (Val.varchar "pg_namespace"),
          some (Val.int (s + 11)), some (Val.int (s + 7))],
       Event.insert "pg_class"
         [some (Val.big aCls), some (Val.int (s + 13)), some (Val.varchar "pg_class"),
          some (Val.int (s + 11)), some (Val.int (s + 7))],
       Event.commit] := by
  have h0 : decide (s = s + 1 + 1 + 1) = false := decide_eq_false (by omega)
  have h1 : decide (s = s + 1 + 1 + 1 + 1 + 1 + 1 + 1 + 1) = false :=
    decide_eq_false (by omega)
  have h2 : decide (s + 1 + 1 + 1 = s + 1 + 1 + 1 + 1 + 1 + 1 + 1 + 1) = false :=
    decide_eq_false (by omega)
  have h3 : decide (s = s + 1 + 1 + 1 + 1 + 1 + 1 + 1 + 1 + 1 + 1 + 1 + 1 + 1) = false :=
    decide_eq_false (by omega)
  have h4 : decide (s + 1 + 1 + 1 = s + 1 + 1 + 1 + 1 + 1 + 1 + 1 + 1 + 1 + 1 + 1 + 1 + 1) =
      false := decide_eq_false (by omega)
  have h5 : decide (s + 1 + 1 + 1 + 1 + 1 + 1 + 1 + 1 =
      s + 1 + 1 + 1 + 1 + 1 + 1 + 1 + 1 + 1 + 1 + 1 + 1 + 1) = false :=
    decide_eq_false (by omega)
  have hiss : (bootstrap s d aDb aTs aNs aCls).issued = List.range' s 19 := by
    simp [bootstrap, Catalog.issue, Catalog.createPGDatabase,
      Catalog.populatePGDatabase, Catalog.createPGTablespace, Catalog.populatePGTablespace,
      Catalog.bootstrapDatabase, Catalog.createPGNameSpace, Catalog.createPGClass,
      Catalog.insertPGClassRow, Catalog.getDatabaseCatalog, Catalog.deref, lookupOidByName,
      SqlTableRW.findRow, SqlTableRW.defineColumn, SqlTableRW.startRow,
      SqlTableRW.setIntColInRow, SqlTableRW.setBigintColInRow, SqlTableRW.setVarcharColInRow,
      SqlTableRW.setColInRow, SqlTableRW.endRowAndInsert, SqlTableRW.empty, List.find?,
      List.getD, List.get?, List.replicate, List.set, readIntCol, List.range']
  refine ⟨hiss, ?_, ?_⟩
  · rw [hiss]
    exact List.pairwise_lt_range' s 19
  · simp [h0, h1, h2, h3, h4, h5, bootstrap, Catalog.issue, Catalog.createPGDatabase,
      Catalog.populatePGDatabase, Catalog.createPGTablespace, Catalog.populatePGTablespace,
      Catalog.bootstrapDatabase, Catalog.createPGNameSpace, Catalog.createPGClass,
      Catalog.insertPGClassRow, Catalog.getDatabaseCatalog, Catalog.deref, lookupOidByName,
      SqlTableRW.findRow, SqlTableRW.defineColumn, SqlTableRW.startRow,
      SqlTableRW.setIntColInRow, SqlTableRW.setBigintColInRow, SqlTableRW.setVarcharColInRow,
      SqlTableRW.setColInRow, SqlTableRW.endRowAndInsert, SqlTableRW.empty, List.find?,
      List.getD, List.get?, List.replicate, List.set, readIntCol]

/-! ## DestroyDB (`catalog.cpp`) -/

/-- The row loop of `Catalog::DestroyDB`: for each scanned `pg_class`
row whose `relnamespace` (column 3) differs from the `pg_catalog`
namespace oid, the raw value of column 0 (`__ptr`) is freed
(`delete reinterpret_cast<SqlTableRW *>(ptr)`); the freed values are
collected in order. -/
def destroyScan : List Row → Nat → List Nat
  | [], _ => []
  | r :: rest, cat =>
    if readIntCol r 3 ≠ cat then readIntCol r 0 :: destroyScan rest cat
    else destroyScan rest cat

/-- Embeds `Catalog::DestroyDB(oid)`: the source initializes the scan
buffer with `InitializerForProjectedColumns(col_oids, 100)` and calls
`Scan` exactly once, so the loop sees at most the first 100 rows of
`pg_class` (the spec's `scan` emits tuples "up to a caller-supplied
batch size").  Returns the freed `__ptr` values. -/
def destroyDB (pgClass : SqlTableRW) (pgCatalogOid : Nat) : List Nat :=
  destroyScan (pgClass.rows.take 100) pgCatalogOid

/-- The destroy loop frees exactly the column-0 values of the rows whose
column 3 differs from the catalog namespace oid. -/
theorem destroyScan_eq (l : List Row) (cat : Nat) :
    destroyScan l cat =
      (l.filter (fun r => decide (readIntCol r 3 ≠ cat))).map
        (fun r => readIntCol r 0) := by
  induction l with
  | nil => rfl
  | cons r rest ih =>
    by_cases h : readIntCol r 3 ≠ cat <;> simp [destroyScan, h, ih]

/-- C8 (amended).  `DestroyDB` frees exactly the `__ptr` values of the
non-`pg_catalog` rows among the first batch (at most 100 rows) of its
single `pg_class` scan; `pg_catalog`-namespaced rows are never freed,
and rows beyond the first 100 are not examined. -/
theorem destroyDB_frees_first_batch (t : SqlTableRW) (cat : Nat) :
    destroyDB t cat =
      ((t.rows.take 100).filter (fun r => decide (readIntCol r 3 ≠ cat))).map
        (fun r => readIntCol r 0) :=
  destroyScan_eq (t.rows.take 100) cat

/-- A `pg_class` (five-column bootstrap schema) holding 101 rows, all in
namespace 5, each with a distinct `__ptr` value `1000 + i`. -/
def bigPgClass : SqlTableRW :=
  { tableOid := 20, addr := 900, cols := pgClassCols 21,
    rows := (List.range 101).map (fun i =>
      [some (Val.big (1000 + i)), some (Val.int i), some (Val.varchar "t"),
       some (Val.int 5), some (Val.int 9)]) }

/-- C8 (counterexample).  On a `pg_class` with 101 non-`pg_catalog` rows
(`pg_catalog` oid 7), `DestroyDB` frees only 100 backing pointers, not
the 101 the claim demands: the freed multiset differs from the multiset
of `__ptr` values of all non-`pg_catalog` rows. -/
theorem destroyDB_batch_counterexample :
    ¬ (Multiset.ofList (destroyDB bigPgClass 7) =
       Multiset.ofList ((bigPgClass.rows.filter
         (fun r => decide (readIntCol r 3 ≠ 7))).map (fun r => readIntCol r 0))) := by
  intro h
  have hc := congrArg Multiset.card h
  rw [Multiset.coe_card, Multiset.coe_card] at hc
  have h1 : (destroyDB bigPgClass 7).length = 100 := by decide
  have h2 : ((bigPgClass.rows.filter
      (fun r => decide (readIntCol r 3 ≠ 7))).map (fun r => readIntCol r 0)).length
      = 101 := by decide
  rw [h1, h2] at hc
  exact absurd hc (by decide)

/-! ## MVCC update conflicts -/

/-- Modelled from the spec (§3, §4.1): the head version of a tuple
slot's chain — its `begin_ts`, whether its writing transaction has
committed, and that writer's id. -/
structure VersionHead where
  beginTs : Nat
  committed : Bool
  writer : Nat
deriving DecidableEq

/-- Modelled from the spec (§4.1, stated there as authoritative over the
source's inconsistent bookkeeping-off path): `update(txn, slot, row)`
returns `false` — a write-write conflict — exactly when the head
version's `begin_ts` is newer than the transaction's `start_ts` or the
head belongs to a concurrent uncommitted writer. -/
def mvccUpdate (txnId startTs : Nat) (head : VersionHead) : Bool :=
  if startTs < head.beginTs ∨ (head.committed = false ∧ head.writer ≠ txnId)
  then false else true

/-- A workload transaction as carried by
`SqlRandomWorkloadTransaction`: its id, start timestamp and `aborted_`
flag. -/
structure WorkloadTxn where
  txnId : Nat
  startTs : Nat
  aborted : Bool
deriving DecidableEq

/-- What `Finish` does with the transaction. -/
inductive TxnOutcome where
  | commit
  | abort
deriving DecidableEq

/-- Embeds the control flow of
`SqlRandomWorkloadTransaction::RandomUpdate`: an already-aborted
transaction returns immediately; with bookkeeping on, a slot already in
`updates_` is skipped; otherwise the table update is attempted and
`aborted_ = !result`.  (Buffer management and the `StageWrite` logging
copy do not affect the abort decision and are omitted.) -/
def randomUpdateStep (bookkeeping alreadyUpdated : Bool) (txn : WorkloadTxn)
    (head : VersionHead) : WorkloadTxn :=
  if txn.aborted then txn
  else if bookkeeping && alreadyUpdated then txn
  else { txn with aborted := !(mvccUpdate txn.txnId txn.startTs head) }

/-- Embeds `SqlRandomWorkloadTransaction::Finish`: an aborted
transaction calls `Abort`, otherwise `Commit`. -/
def finishTxn (txn : WorkloadTxn) : TxnOutcome :=
  if txn.aborted then TxnOutcome.abort else TxnOutcome.commit

/-- C4.  When the head version of the slot's chain has `begin_ts` newer
than the transaction's `start_ts`, or belongs to a concurrent
uncommitted writer, `update` returns `false`, and a transaction that
attempted such an update finishes by aborting, never committing — for
either setting of the bookkeeping flag. -/
theorem update_conflict_aborts (bookkeeping alreadyUpdated : Bool)
    (txn : WorkloadTxn) (head : VersionHead)
    (hattempt : ¬(bookkeeping = true ∧ alreadyUpdated = true))
    (hconflict : txn.startTs < head.beginTs ∨
      (head.committed = false ∧ head.writer ≠ txn.txnId)) :
    mvccUpdate txn.txnId txn.startTs head = false ∧
    finishTxn (randomUpdateStep bookkeeping alreadyUpdated txn head) =
      TxnOutcome.abort := by
  have hupd : mvccUpdate txn.txnId txn.startTs head = false := by
    simp [mvccUpdate, hconflict]
  refine ⟨hupd, ?_⟩
  by_cases ha : txn.aborted
  · simp [randomUpdateStep, finishTxn, ha]
  · have hb : (bookkeeping && alreadyUpdated) = false := by
      cases bookkeeping <;> cases alreadyUpdated <;> simp_all
    simp [randomUpdateStep, finishTxn, ha, hb, hupd]

/-- Witness for C4: a transaction with start timestamp 3 hitting a
committed head version with `begin_ts` 5 fails the update and
aborts (bookkeeping off). -/
theorem update_conflict_aborts_witness :
    (¬((false : Bool) = true ∧ (false : Bool) = true)) ∧
    ((3 : Nat) < 5 ∨ ((true : Bool) = false ∧ (0 : Nat) ≠ 1)) ∧
    (mvccUpdate 1 3 ⟨5, true, 0⟩ = false ∧
     finishTxn (randomUpdateStep false false ⟨1, 3, false⟩ ⟨5, true, 0⟩) =
       TxnOutcome.abort) :=
  ⟨by decide, by decide,
   update_conflict_aborts false false ⟨1, 3, false⟩ ⟨5, true, 0⟩
     (by decide) (by decide)⟩

/-! ## Table states, workloads and the WAL

The storage engine proper (`DataTable`, `TransactionManager`,
`LogManager`, `CheckpointManager`) is not part of the repository
snapshot — only its tests are — so the durability layer is modelled
from the spec: a table is a sequence of slots holding committed
versions; a committed transaction applies its redo records (inserts and
projected-column update deltas) at its commit timestamp; the WAL lists
the redo records of committed transactions in commit order. -/

/-- Modelled from the spec (§3): the committed version visible in a
tuple slot — the writer's commit timestamp and the column values. -/
structure CRow where
  cts : Nat
  vals : Row
deriving DecidableEq

/-- A table state: the committed row of each allocated slot, indexed by
slot position. -/
abbrev CTable := List CRow

/-- A redo delta: the projected columns an update writes, as
`(column index, new value-or-NULL)` pairs. -/
abbrev Delta := List (Nat × Option Val)

/-- Applies a projected-row delta to a full row. -/
def applyDelta (d : Delta) (r : Row) : Row :=
  d.foldl (fun r cv => r.set cv.1 cv.2) r

/-- A redo operation: an insert of a full row, or an update of the row
in a slot by a delta (spec §6: `kind ∈ {INSERT, UPDATE, ...}` with slot
and projected row bytes). -/
inductive Op where
  | ins (r : Row)
  | upd (slot : Nat) (d : Delta)
deriving DecidableEq

/-- Applies one redo operation at commit timestamp `cts`: an insert
allocates the next slot sequentially (spec §4.1); an update installs
the new version at the slot (an update of an unallocated slot is a
no-op). -/
def applyOp (t : CTable) (cts : Nat) : Op → CTable
  | Op.ins r => t ++ [⟨cts, r⟩]
  | Op.upd s d =>
    match t[s]? with
    | some row => t.set s ⟨cts, applyDelta d row.vals⟩
    | none => t

/-- A committed transaction: its commit timestamp and its redo
operations in program order. -/
structure Txn where
  cts : Nat
  ops : List Op
deriving DecidableEq

/-- Commit of one transaction: applies its redo records in order, each
stamped with the transaction's commit timestamp. -/
def applyTxn (t : CTable) (txn : Txn) : CTable :=
  txn.ops.foldl (fun t op => applyOp t txn.cts op) t

/-- Applies a workload (transactions listed in commit order). -/
def applyWorkload (t : CTable) (w : List Txn) : CTable :=
  w.foldl applyTxn t

/-- A WAL record: the writing transaction's commit timestamp and the
redo operation (spec §6 record format, with the physical fields
abstracted). -/
structure WalRec where
  cts : Nat
  op : Op
deriving DecidableEq

/-- The WAL contents for a committed workload: each transaction's
records appear consecutively, transactions in commit order (spec §4.4
ordering guarantee). -/
def wal : List Txn → List WalRec
  | [] => []
  | txn :: rest => txn.ops.map (fun op => ⟨txn.cts, op⟩) ++ wal rest

/-- Applies WAL records in file order. -/
def replay (recs : List WalRec) (t : CTable) : CTable :=
  recs.foldl (fun t rec => applyOp t rec.cts rec.op) t

/-- Modelled from the spec: `RecoverFromLogs(log_path, min_ts)` opens
the WAL, discards the records with `commit_ts ≤ min_ts`, and applies
the rest in file order to the registered tables. -/
def recoverFromLogs (minTs : Nat) (recs : List WalRec) (t : CTable) : CTable :=
  replay (recs.filter (fun rec => decide (minTs < rec.cts))) t

/-- The row contents of a table, slot by slot. -/
def valsOf (t : CTable) : List Row := t.map (fun r => r.vals)

/-- Recovery loads checkpointed rows into a fresh registered table
under the recovery transaction (timestamp `rts`), preserving slot
positions. -/
def loadRows (rts : Nat) (rs : List Row) : CTable := rs.map (fun r => ⟨rts, r⟩)

/-- The row-level effect of a redo operation (timestamps forgotten). -/
def applyOpV (t : List Row) : Op → List Row
  | Op.ins r => t ++ [r]
  | Op.upd s d =>
    match t[s]? with
    | some row => t.set s (applyDelta d row)
    | none => t

/-- Row-level replay of WAL records. -/
def replayVals (recs : List WalRec) (rs : List Row) : List Row :=
  recs.foldl (fun rs rec => applyOpV rs rec.op) rs

theorem applyOp_vals (t : CTable) (c : Nat) (op : Op) :
    valsOf (applyOp t c op) = applyOpV (valsOf t) op := by
  cases op with
  | ins r => simp [applyOp, applyOpV, valsOf]
  | upd s d =>
    simp only [applyOp, applyOpV, valsOf]
    cases hg : t[s]? with
    | none => simp [List.getElem?_map, hg]
    | some row => simp [List.getElem?_map, hg, List.map_set]

theorem replay_vals (recs : List WalRec) (t : CTable) :
    valsOf (replay recs t) = replayVals recs (valsOf t) := by
  induction recs generalizing t with
  | nil => rfl
  | cons rec rest ih =>
    simp only [replay, replayVals, List.foldl_cons]
    have := ih (applyOp t rec.cts rec.op)
    simpa [replay, replayVals, applyOp_vals] using this

theorem applyTxn_vals (t : CTable) (txn : Txn) :
    valsOf (applyTxn t txn) =
      replayVals (txn.ops.map (fun op => ⟨txn.cts, op⟩)) (valsOf t) := by
  show valsOf ((txn.ops.foldl (fun t op => applyOp t txn.cts op) t)) = _
  rw [replayVals, List.foldl_map]
  induction txn.ops generalizing t with
  | nil => rfl
  | cons op rest ih =>
    simp only [List.foldl_cons]
    rw [ih (applyOp t txn.cts op), applyOp_vals]

theorem replayVals_append (a b : List WalRec) (rs : List Row) :
    replayVals (a ++ b) rs = replayVals b (replayVals a rs) := by
  simp [replayVals, List.foldl_append]

theorem applyWorkload_vals (t : CTable) (w : List Txn) :
    valsOf (applyWorkload t w) = replayVals (wal w) (valsOf t) := by
  induction w generalizing t with
  | nil => rfl
  | cons txn rest ih =>
    simp only [applyWorkload, List.foldl_cons, wal]
    rw [replayVals_append, ← applyTxn_vals]
    exact ih (applyTxn t txn)

theorem wal_append (a b : List Txn) : wal (a ++ b) = wal a ++ wal b := by
  induction a with
  | nil => rfl
  | cons txn rest ih => simp [wal, ih]

/-- Every WAL record carries the commit timestamp of a transaction of
the workload. -/
theorem wal_cts_mem (rec : WalRec) (w : List Txn) (h : rec ∈ wal w) :
    ∃ txn ∈ w, rec.cts = txn.cts := by
  induction w with
  | nil => simp [wal] at h
  | cons txn rest ih =>
    simp only [wal, List.mem_append] at h
    rcases h with h | h
    · rcases List.mem_map.1 h with ⟨op, _, rfl⟩
      exact ⟨txn, List.mem_cons_self .., rfl⟩
    · rcases ih h with ⟨txn2, hmem, hcts⟩
      exact ⟨txn2, List.mem_cons_of_mem _ hmem, hcts⟩

/-- C3.  For a committed, fully flushed workload (all commit timestamps
positive, as issued by the monotonic counter), `RecoverFromLogs` with
timestamp 0 into a freshly created empty registered table discards
nothing and replays every record, producing a row multiset equal to
that of the live table. -/
theorem wal_only_recovery (w : List Txn) (h : ∀ txn ∈ w, 0 < txn.cts) :
    Multiset.ofList (valsOf (recoverFromLogs 0 (wal w) [])) =
      Multiset.ofList (valsOf (applyWorkload [] w)) := by
  have hfilter : (wal w).filter (fun rec => decide (0 < rec.cts)) = wal w := by
    rw [List.filter_eq_self]
    intro rec hmem
    rcases wal_cts_mem rec (w := w) hmem with ⟨txn, htxn, hcts⟩
    simpa [hcts] using h txn htxn
  have : valsOf (recoverFromLogs 0 (wal w) []) = valsOf (applyWorkload [] w) := by
    rw [recoverFromLogs, hfilter, replay_vals, applyWorkload_vals]
  rw [this]

/-- Witness for C3: a two-transaction workload — an insert committed at
timestamp 1, an update of slot 0 committed at timestamp 2 — replayed
from the WAL alone into an empty table reproduces the live rows. -/
theorem wal_only_recovery_witness :
    (∀ txn ∈ [(⟨1, [Op.ins [some (Val.int 1), none]]⟩ : Txn),
              ⟨2, [Op.upd 0 [(0, some (Val.int 9))]]⟩], 0 < txn.cts) ∧
    Multiset.ofList (valsOf (recoverFromLogs 0
        (wal [⟨1, [Op.ins [some (Val.int 1), none]]⟩,
              ⟨2, [Op.upd 0 [(0, some (Val.int 9))]]⟩]) [])) =
      Multiset.ofList (valsOf (applyWorkload []
        [⟨1, [Op.ins [some (Val.int 1), none]]⟩,
         ⟨2, [Op.upd 0 [(0, some (Val.int 9))]]⟩])) :=
  ⟨by decide,
   wal_only_recovery
     [⟨1, [Op.ins [some (Val.int 1), none]]⟩,
      ⟨2, [Op.upd 0 [(0, some (Val.int 9))]]⟩] (by decide)⟩

/-! ## Checkpoint file format (modelled from spec §6)

The checkpoint file is a number stream (bytes abstracted to `Nat`):
`magic "CKPT" | version | checkpoint_ts | table_count`, then a table
section `table_oid | tuple_count | tuple_records`, then a footer
`crc | magic "ENDC"`.  Each tuple record is
`slot_block_id | slot_index | len | projected_row_bytes`. -/

/-- Serialization of one cell value. -/
def encodeVal : Val → List Nat
  | Val.int v => [0, v]
  | Val.big v => [1, v]
  | Val.varchar s =>
    2 :: (s.toList.map Char.toNat).length :: s.toList.map Char.toNat

/-- Parses one cell value, returning it and the remaining stream. -/
def decodeVal : List Nat → Option (Val × List Nat)
  | 0 :: v :: rest => some (Val.int v, rest)
  | 1 :: v :: rest => some (Val.big v, rest)
  | 2 :: n :: rest =>
    if n ≤ rest.length then
      some (Val.varchar (String.mk ((rest.take n).map Char.ofNat)), rest.drop n)
    else none
  | _ => none

/-- Serialization of one column of a projected row (null bit plus
value). -/
def encodeCell : Option Val → List Nat
  | none => [0]
  | some v => 1 :: encodeVal v

/-- Parses one column. -/
def decodeCell : List Nat → Option (Option Val × List Nat)
  | 0 :: rest => some (none, rest)
  | 1 :: rest => (decodeVal rest).map (fun p => (some p.1, p.2))
  | _ => none

/-- Serialization of the columns of a row. -/
def encodeCells : Row → List Nat
  | [] => []
  | c :: cs => encodeCell c ++ encodeCells cs

/-- The `projected_row_bytes` of a row: column count then columns. -/
def encodeRowBytes (r : Row) : List Nat := r.length :: encodeCells r

/-- Parses `n` columns. -/
def decodeCells : Nat → List Nat → Option (Row × List Nat)
  | 0, bs => some ([], bs)
  | n + 1, bs =>
    (decodeCell bs).bind fun p =>
      (decodeCells n p.2).map fun q => (p.1 :: q.1, q.2)

/-- Parses projected row bytes. -/
def decodeRowBytes : List Nat → Option (Row × List Nat)
  | n :: bs => decodeCells n bs
  | [] => none

/-- One tuple record: `slot_block_id (0) | slot_index | len | bytes`. -/
def encodeRecord (idx : Nat) (r : Row) : List Nat :=
  0 :: idx :: (encodeRowBytes r).length :: encodeRowBytes r

/-- Parses one tuple record: reads the length prefix, parses exactly
that chunk as projected row bytes. -/
def decodeRecord : List Nat → Option (Row × List Nat)
  | _b :: _i :: len :: rest =>
    (decodeRowBytes (rest.take len)).bind fun p =>
      if p.2 = [] then some (p.1, rest.drop len) else none
  | _ => none

/-- The tuple records of a table, slots numbered sequentially. -/
def encodeRecords : Nat → List Row → List Nat
  | _, [] => []
  | i, r :: rs => encodeRecord i r ++ encodeRecords (i + 1) rs

/-- Parses `n` tuple records. -/
def decodeRecords : Nat → List Nat → Option (List Row × List Nat)
  | 0, bs => some ([], bs)
  | n + 1, bs =>
    (decodeRecord bs).bind fun p =>
      (decodeRecords n p.2).map fun q => (p.1 :: q.1, q.2)

/-- "CKPT". -/
def ckptMagic : List Nat := [67, 75, 80, 84]

/-- "ENDC". -/
def ckptEndMagic : List Nat := [69, 78, 68, 67]

/-- The footer checksum over `[header..footer)`, modelled as a 32-bit
sum. -/
def crcOf (l : List Nat) : Nat := l.sum % 4294967296

/-- Header and table section of a single-table checkpoint taken at
`ts`: the tuples visible to the checkpoint read transaction. -/
def checkpointBody (ts oid : Nat) (rows : List Row) : List Nat :=
  ckptMagic ++ [1, ts, 1] ++ [oid, rows.length] ++ encodeRecords 0 rows

/-- `CheckpointManager::Process`: the full checkpoint file — body,
checksum, end magic. -/
def checkpointFile (ts oid : Nat) (rows : List Row) : List Nat :=
  checkpointBody ts oid rows ++ (crcOf (checkpointBody ts oid rows) :: ckptEndMagic)

/-- Parses the checkpoint body against the registered table: checks
magic, version and table count, rejects a table oid that was not
registered (`RegisterTable`), and reads the tuple records. -/
def parseBody (regOid : Nat) (body : List Nat) : Option (List Row) :=
  match body with
  | m1 :: m2 :: m3 :: m4 :: ver :: _ts :: tc :: oid :: cnt :: rest =>
    if [m1, m2, m3, m4] = ckptMagic ∧ ver = 1 ∧ tc = 1 ∧ oid = regOid then
      (decodeRecords cnt rest).bind fun p =>
        if p.2 = [] then some p.1 else none
    else none
  | _ => none

/-- `CheckpointManager::Recover`: verifies the footer (checksum and end
magic — a missing or mismatched footer makes the file ignored, spec
§4.5 failure semantics) and parses the body into the registered
table's rows. -/
def recoverTable (regOid : Nat) (file : List Nat) : Option (List Row) :=
  match file.drop (file.length - 5) with
  | [c, e1, e2, e3, e4] =>
    if c = crcOf (file.take (file.length - 5)) ∧ [e1, e2, e3, e4] = ckptEndMagic
    then parseBody regOid (file.take (file.length - 5))
    else none
  | _ => none

theorem stringMk_toList (s : String) : String.mk s.toList = s := by
  cases s
  rfl

theorem decodeVal_encodeVal (v : Val) (tl : List Nat) :
    decodeVal (encodeVal v ++ tl) = some (v, tl) := by
  cases v with
  | int v => rfl
  | big v => rfl
  | varchar s =>
    have hmap : ∀ l : List Char, (l.map Char.toNat).map Char.ofNat = l := by
      intro l
      induction l with
      | nil => rfl
      | cons c cs ih => simp [ih]
    simp only [encodeVal, decodeVal, List.cons_append]
    rw [if_pos (by simp), List.take_left, List.drop_left, hmap, stringMk_toList]

theorem decodeCell_encodeCell (c : Option Val) (tl : List Nat) :
    decodeCell (encodeCell c ++ tl) = some (c, tl) := by
  cases c with
  | none => rfl
  | some v => simp [encodeCell, decodeCell, decodeVal_encodeVal]

theorem decodeCells_encodeCells (r : Row) (tl : List Nat) :
    decodeCells r.length (encodeCells r ++ tl) = some (r, tl) := by
  induction r generalizing tl with
  | nil => rfl
  | cons c cs ih =>
    simp [encodeCells, decodeCells, List.append_assoc, decodeCell_encodeCell, ih]

theorem decodeRowBytes_encodeRowBytes (r : Row) (tl : List Nat) :
    decodeRowBytes (encodeRowBytes r ++ tl) = some (r, tl) := by
  simp [encodeRowBytes, decodeRowBytes, decodeCells_encodeCells]

theorem decodeRecord_encodeRecord (i : Nat) (r : Row) (tl : List Nat) :
    decodeRecord (encodeRecord i r ++ tl) = some (r, tl) := by
  simp only [encodeRecord, decodeRecord, List.cons_append]
  rw [List.take_left, List.drop_left]
  have h := decodeRowBytes_encodeRowBytes r []
  rw [List.append_nil] at h
  simp [h]

theorem decodeRecords_encodeRecords (rs : List Row) (i : Nat) (tl : List Nat) :
    decodeRecords rs.length (encodeRecords i rs ++ tl) = some (rs, tl) := by
  induction rs generalizing i tl with
  | nil => rfl
  | cons r rest ih =>
    simp [encodeRecords, decodeRecords, List.append_assoc,
      decodeRecord_encodeRecord, ih]

/-- Recovering a checkpoint file into the registered table reproduces
exactly the checkpointed rows. -/
theorem recoverTable_roundtrip (ts oid : Nat) (rows : List Row) :
    recoverTable oid (checkpointFile ts oid rows) = some rows := by
  have hlen : (checkpointFile ts oid rows).length =
      (checkpointBody ts oid rows).length + 5 := by
    simp [checkpointFile, ckptEndMagic]
  have htake : (checkpointFile ts oid rows).take
      ((checkpointFile ts oid rows).length - 5) = checkpointBody ts oid rows := by
    rw [hlen, Nat.add_sub_cancel, checkpointFile, List.take_left]
  have hdrop : (checkpointFile ts oid rows).drop
      ((checkpointFile ts oid rows).length - 5) =
      crcOf (checkpointBody ts oid rows) :: ckptEndMagic := by
    rw [hlen, Nat.add_sub_cancel, checkpointFile, List.drop_left]
  have hrec := decodeRecords_encodeRecords rows 0 []
  rw [List.append_nil] at hrec
  simp only [recoverTable]
  rw [hdrop, htake]
  simp [parseBody, checkpointBody, ckptMagic, ckptEndMagic, hrec]

/-- Whether a redo operation is an insert. -/
def Op.isInsert : Op → Bool
  | Op.ins _ => true
  | Op.upd _ _ => false

/-- C1.  For a table populated by a workload of committed inserts,
checkpointing the table under a read transaction
(`CheckpointManager::Process` at timestamp `ts`, after the whole
workload committed) and recovering the file into a fresh empty
registered table (`StartRecovery` / `RegisterTable` / `Recover`)
reproduces the original row multiset (here even the exact rows in slot
order). -/
theorem checkpoint_recovery_roundtrip (w : List Txn) (ts oid : Nat)
    (hins : ∀ txn ∈ w, ∀ op ∈ txn.ops, op.isInsert = true) :
    (recoverTable oid (checkpointFile ts oid (valsOf (applyWorkload [] w)))).map
        Multiset.ofList =
      some (Multiset.ofList (valsOf (applyWorkload [] w))) := by
  rw [recoverTable_roundtrip]
  rfl

/-- The two-insert workload used to witness C1. -/
def c1Workload : List Txn :=
  [⟨1, [Op.ins [some (Val.int 1), some (Val.varchar "ab")]]⟩,
   ⟨2, [Op.ins [none, some (Val.int 7)]]⟩]

/-- Witness for C1: a two-insert workload checkpointed at timestamp 9
and recovered into registered table oid 0 reproduces both rows. -/
theorem checkpoint_recovery_roundtrip_witness :
    (∀ txn ∈ c1Workload, ∀ op ∈ txn.ops, op.isInsert = true) ∧
    (recoverTable 0 (checkpointFile 9 0
        (valsOf (applyWorkload [] c1Workload)))).map Multiset.ofList =
      some (Multiset.ofList (valsOf (applyWorkload [] c1Workload))) :=
  ⟨by decide, checkpoint_recovery_roundtrip c1Workload 9 0 (by decide)⟩

/-- C2.  For a workload split `w1` (committed at or before the
checkpoint timestamp) followed by `w2` (committed after it), recovering
the checkpoint file of the `w1` state into a fresh registered table and
then replaying the WAL with `min_ts` equal to the checkpoint timestamp
— which discards exactly the records with `commit_ts ≤ min_ts` and
applies the rest in file order — reproduces the row multiset of the
live table after the whole workload. -/
theorem checkpoint_wal_roundtrip (w1 w2 : List Txn) (tc oid rts : Nat)
    (h1 : ∀ txn ∈ w1, txn.cts ≤ tc) (h2 : ∀ txn ∈ w2, tc < txn.cts) :
    (recoverTable oid (checkpointFile tc oid (valsOf (applyWorkload [] w1)))).map
        (fun rs => Multiset.ofList (valsOf
          (recoverFromLogs tc (wal (w1 ++ w2)) (loadRows rts rs)))) =
      some (Multiset.ofList (valsOf (applyWorkload [] (w1 ++ w2)))) := by
  rw [recoverTable_roundtrip]
  have hfilter : (wal (w1 ++ w2)).filter (fun rec => decide (tc < rec.cts)) =
      wal w2 := by
    rw [wal_append, List.filter_append]
    have ha : (wal w1).filter (fun rec => decide (tc < rec.cts)) = [] := by
      rw [List.filter_eq_nil]
      intro rec hmem
      rcases wal_cts_mem rec w1 hmem with ⟨txn, htxn, hcts⟩
      simp only [hcts, decide_eq_true_eq]
      exact Nat.not_lt.2 (h1 txn htxn)
    have hb : (wal w2).filter (fun rec => decide (tc < rec.cts)) = wal w2 := by
      rw [List.filter_eq_self]
      intro rec hmem
      rcases wal_cts_mem rec w2 hmem with ⟨txn, htxn, hcts⟩
      simp only [hcts, decide_eq_true_eq]
      exact h2 txn htxn
    rw [ha, hb, List.nil_append]
  have hload : valsOf (loadRows rts (valsOf (applyWorkload [] w1))) =
      valsOf (applyWorkload [] w1) := by
    simp [loadRows, valsOf, List.map_map, Function.comp]
  have hsplit : applyWorkload ([] : CTable) (w1 ++ w2) =
      applyWorkload (applyWorkload [] w1) w2 := by
    simp [applyWorkload, List.foldl_append]
  have hmain : valsOf (recoverFromLogs tc (wal (w1 ++ w2))
      (loadRows rts (valsOf (applyWorkload [] w1)))) =
      valsOf (applyWorkload [] (w1 ++ w2)) := by
    rw [recoverFromLogs, hfilter, replay_vals, hload, hsplit]
    exact (applyWorkload_vals (applyWorkload [] w1) w2).symm
  simp only [Option.map_some']
  rw [hmain]

/-- The pre-checkpoint workload used to witness C2. -/
def c2Before : List Txn := [⟨1, [Op.ins [some (Val.int 1), none]]⟩]

/-- The post-checkpoint workload used to witness C2. -/
def c2After : List Txn := [⟨5, [Op.upd 0 [(0, some (Val.int 9))]]⟩]

/-- Witness for C2: one insert committed at timestamp 1 (before the
checkpoint at 3) and one update of slot 0 committed at timestamp 5
(after it); checkpoint recovery plus WAL replay with `min_ts = 3`
reproduces the live rows. -/
theorem checkpoint_wal_roundtrip_witness :
    (∀ txn ∈ c2Before, txn.cts ≤ 3) ∧
    (∀ txn ∈ c2After, 3 < txn.cts) ∧
    (recoverTable 0 (checkpointFile 3 0
        (valsOf (applyWorkload [] c2Before)))).map
        (fun rs => Multiset.ofList (valsOf
          (recoverFromLogs 3 (wal (c2Before ++ c2After)) (loadRows 7 rs)))) =
      some (Multiset.ofList (valsOf (applyWorkload [] (c2Before ++ c2After)))) :=
  ⟨by decide, by decide,
   checkpoint_wal_roundtrip c2Before c2After 3 0 7 (by decide) (by decide)⟩

end Terrier
